import Mathlib

/-!
Shallow embedding of the extension-type registry and factory of
`ext/msgpack/factory_class.c` (msgpack-ruby), together with models of the
Ruby runtime primitives that the C code calls (`rb_num2int`,
`rb_hash_aref`, `Symbol#to_proc`, `Object#method`) and of the two
extension-registry modules (`packer_ext_registry` / `unpacker_ext_registry`),
whose C sources are not part of the visible core and are therefore
modelled from the specification.

In the model, the in-place mutation of a factory performed by
`Factory_register_type` becomes explicit state passing: each stateful
operation takes the factory value and returns the (possibly updated)
factory together with an `Except` result; `Except.error` corresponds to a
raised Ruby exception, at which point the returned factory is the state
the C struct held at the raise site.
-/

/-- The kinds of Ruby exceptions the embedded code paths can raise.
`argError` = `ArgumentError`, `rangeError` = `RangeError`,
`typeError` = `TypeError` (raised by `rb_num2int` on a value with no
integer conversion), `nameError` = `NameError` (raised by `Object#method`
when the named method is undefined), `noMethodError` = `NoMethodError`
(raised when `to_proc` is sent to a value lacking it). -/
inductive RubyError where
  | argError
  | rangeError
  | typeError
  | nameError
  | noMethodError
deriving DecidableEq

/-- A normalized callable ("proc-like") value as stored in the registries.
`symProc name` is the result of `Symbol#to_proc` (a lazy named-method
proc: nothing is looked up on any class when it is built);
`boundMethod cname mname` is a `Method` object produced by
`rb_obj_method` on the class object named `cname`;
`objToProc objId` is the opaque result of calling `to_proc` on a
duck-typed object; `objMethod objId mname` is the `Method` object
`obj.method(mname)` of a duck-typed object; `plain id` is an ordinary
`Proc`/lambda value supplied by the user; `callMethod p` is the `Method`
object `p.method(:call)` extracted from an already-callable value `p`. -/
inductive HookProc where
  | symProc (mname : String)
  | boundMethod (cname : String) (mname : String)
  | objToProc (objId : Nat)
  | objMethod (objId : Nat) (mname : String)
  | plain (id : Nat)
  | callMethod (p : HookProc)
deriving DecidableEq

/-- Model of a Ruby `VALUE` as observed by `Factory_register_type`.
`vclass cname cmeths` is a class object (`T_CLASS`) whose class-level
(singleton) method names are `cmeths`; `vmodule` is a module
(`T_MODULE`, an interface-only value, not a class);
`vhash entries` is a hash — only symbol keys are modelled, since
`Factory_register_type` probes a hash only at the symbol keys `:packer`
and `:unpacker` (`rb_hash_aref` returns `vnil` for an absent key either
way); `vobj objId meths` is a duck-typed object exposing the method
names `meths`. -/
inductive RValue where
  | vnil
  | vint (n : Int)
  | vsym (s : String)
  | vstr (s : String)
  | vclass (cname : String) (cmeths : List String)
  | vmodule (mname : String)
  | vhash (entries : List (String × RValue))
  | vproc (p : HookProc)
  | vobj (objId : Nat) (meths : List String)

/-- Model of `rb_hash_aref h key` for a symbol key: the value stored at
`key`, or `nil` when the key is absent. -/
def rb_hash_aref (entries : List (String × RValue)) (key : String) : RValue :=
  match entries with
  | [] => .vnil
  | (k, v) :: rest => if k = key then v else rb_hash_aref rest key

/-- Model of `rb_num2int`: a Ruby `Integer` is converted, raising
`RangeError` when it does not fit in a C signed 32-bit `int`; any value
without an implicit integer conversion raises `TypeError`. -/
def rb_num2int (v : RValue) : Except RubyError Int :=
  match v with
  | .vint n =>
      if n < -2147483648 ∨ 2147483647 < n then .error .rangeError else .ok n
  | _ => .error .typeError

/-- Model of Ruby `to_proc` dispatch, as invoked by
`rb_funcall(packer_arg, rb_intern("to_proc"), 0)`:
`Symbol#to_proc` builds a lazy named-method proc without resolving
anything on any class; a `Proc` (or `Method`) converts to itself; a
duck-typed object converts iff it defines `to_proc`; every other value
raises `NoMethodError`. -/
def ruby_to_proc (v : RValue) : Except RubyError RValue :=
  match v with
  | .vsym s => .ok (.vproc (.symProc s))
  | .vproc p => .ok (.vproc p)
  | .vobj objId meths =>
      if "to_proc" ∈ meths then .ok (.vproc (.objToProc objId))
      else .error .noMethodError
  | _ => .error .noMethodError

/-- Model of `rb_obj_method(ext_class, name)` where `ext_class` is the
class object named `cname` with class-level methods `cmeths`: `Object#method`
eagerly resolves `name` on the receiver, returning a bound `Method`
object, and raises `NameError` when the method is undefined. -/
def rb_obj_method (cname : String) (cmeths : List String) (mname : String) :
    Except RubyError RValue :=
  if mname ∈ cmeths then .ok (.vproc (.boundMethod cname mname))
  else .error .nameError

/-- Model of `rb_funcall(v, rb_intern("method"), 1, ID2SYM(rb_intern("call")))`,
i.e. `v.method(:call)`: a `Proc`-like value yields the `Method` object of
its `call`; a duck-typed object yields one iff it defines `call`; a class
object yields one iff `call` is among its class-level methods; every
other value raises `NameError`. -/
def ruby_method_call_of (v : RValue) : Except RubyError RValue :=
  match v with
  | .vproc p => .ok (.vproc (.callMethod p))
  | .vobj objId meths =>
      if "call" ∈ meths then .ok (.vproc (.objMethod objId "call"))
      else .error .nameError
  | .vclass cname cmeths =>
      if "call" ∈ cmeths then .ok (.vproc (.boundMethod cname "call"))
      else .error .nameError
  | _ => .error .nameError

/-- Insert-or-overwrite on an association list: the entry for an already
present key is replaced in place (last write wins); a new key is appended. -/
def assocPut {α β : Type} [DecidableEq α] (k : α) (v : β) :
    List (α × β) → List (α × β)
  | [] => [(k, v)]
  | (k', v') :: rest =>
      if k' = k then (k, v) :: rest else (k', v') :: assocPut k v rest

/-- Lookup on an association list. -/
def assocGet {α β : Type} [DecidableEq α] (k : α) :
    List (α × β) → Option β
  | [] => none
  | (k', v) :: rest => if k' = k then some v else assocGet k rest

/-- Modelled from the spec: `packer_ext_registry.c` is not part of the
visible core. Per §4.1, the encode-side extension registry is an
insertion-ordered mapping keyed by the associated type, each entry
holding the extension type code and the encode hook. The type identity
is modelled by the class name. -/
structure msgpack_packer_ext_registry_t where
  table : List (String × (Int × RValue))

/-- Modelled from the spec: `unpacker_ext_registry.c` is not part of the
visible core. Per §4.2, the decode-side extension registry is an
insertion-ordered mapping keyed by the extension type code, each entry
holding the decode hook. -/
structure msgpack_unpacker_ext_registry_t where
  table : List (Int × RValue)

/-- Modelled from the spec (§4.1 `init`): the empty encode-side registry. -/
def msgpack_packer_ext_registry_init : msgpack_packer_ext_registry_t := ⟨[]⟩

/-- Modelled from the spec (§4.2 `init`): the empty decode-side registry. -/
def msgpack_unpacker_ext_registry_init : msgpack_unpacker_ext_registry_t := ⟨[]⟩

/-- Modelled from the spec (§4.1 `put`): inserts or overwrites the entry
for `cname`; no validation, no side effect beyond the mapping mutation. -/
def msgpack_packer_ext_registry_put (rg : msgpack_packer_ext_registry_t)
    (cname : String) (ext_type : Int) (proc : RValue) :
    msgpack_packer_ext_registry_t :=
  ⟨assocPut cname (ext_type, proc) rg.table⟩

/-- Modelled from the spec (§4.2 `put`): inserts or overwrites the entry
for `ext_type`. -/
def msgpack_unpacker_ext_registry_put (rg : msgpack_unpacker_ext_registry_t)
    (ext_type : Int) (proc : RValue) : msgpack_unpacker_ext_registry_t :=
  ⟨assocPut ext_type proc rg.table⟩

/-- Modelled from the spec (§4.1 `duplicate`): an independent registry
whose entries are value-equal to the source's at the time of the call.
In the pure model a registry is a value, so the duplicate is that value;
independence of storage is expressed by the fact that a later `put` on
either side produces a new value and leaves the other side's value as it
was. -/
def msgpack_packer_ext_registry_dup (rg : msgpack_packer_ext_registry_t) :
    msgpack_packer_ext_registry_t := ⟨rg.table⟩

/-- Modelled from the spec (§4.2 `duplicate`): decode-side duplication. -/
def msgpack_unpacker_ext_registry_dup (rg : msgpack_unpacker_ext_registry_t) :
    msgpack_unpacker_ext_registry_t := ⟨rg.table⟩

/-- Observation of the encode-side registry at a type key. -/
def packer_registry_lookup (rg : msgpack_packer_ext_registry_t)
    (cname : String) : Option (Int × RValue) :=
  assocGet cname rg.table

/-- Observation of the decode-side registry at a code key. -/
def unpacker_registry_lookup (rg : msgpack_unpacker_ext_registry_t)
    (code : Int) : Option RValue :=
  assocGet code rg.table

/-- `struct msgpack_factory_t`: packer/unpacker option hashes (reserved)
plus the two extension registries. -/
structure Factory where
  packer_options : RValue
  unpacker_options : RValue
  pkrg : msgpack_packer_ext_registry_t
  ukrg : msgpack_unpacker_ext_registry_t

/-- `Factory_alloc`: fresh factory with empty option hashes and empty
registries. -/
def Factory_alloc : Factory :=
  { packer_options := .vhash []
    unpacker_options := .vhash []
    pkrg := msgpack_packer_ext_registry_init
    ukrg := msgpack_unpacker_ext_registry_init }

/-- `Factory_initialize` (embedded under a shortened name): accepts zero
arguments and leaves the factory as allocated; any other argument count
raises `ArgumentError` ("wrong number of arguments (%d for 0)"). -/
def Factory_init (fc : Factory) (argc : Nat) :
    Factory × Except RubyError RValue :=
  match argc with
  | 0 => (fc, .ok .vnil)
  | _ => (fc, .error .argError)

/-- The slice of a packer's state configured by the factory: its
extension registry (the rest of `msgpack_packer_t` is out of scope). -/
structure Packer where
  ext_registry : msgpack_packer_ext_registry_t

/-- The slice of an unpacker's state configured by the factory. -/
structure Unpacker where
  ext_registry : msgpack_unpacker_ext_registry_t

/-- `Factory_packer`: builds a new packer, discards the registry the
plain construction would attach, and installs a duplicate of the
factory's current encode-side registry. The factory is not modified. -/
def Factory_packer (fc : Factory) : Packer :=
  { ext_registry := msgpack_packer_ext_registry_dup fc.pkrg }

/-- `Factory_unpacker`: symmetric to `Factory_packer`, using a duplicate
of the decode-side registry. -/
def Factory_unpacker (fc : Factory) : Unpacker :=
  { ext_registry := msgpack_unpacker_ext_registry_dup fc.ukrg }

/-- Lines 160–165 of `Factory_register_type`: `packer_proc` starts as
`Qnil` and, when the packer argument is non-nil, is replaced by the
result of sending `to_proc` to it. -/
def resolve_packer_arg (packer_arg : RValue) : Except RubyError RValue :=
  match packer_arg with
  | .vnil => .ok .vnil
  | pa => ruby_to_proc pa

/-- Lines 160–162 and 167–173 of `Factory_register_type`:
`unpacker_proc` starts as `Qnil`; a non-nil Symbol or String unpacker
argument is resolved eagerly with `rb_obj_method` on the class; any
other non-nil unpacker argument has its `call` method extracted via
`.method(:call)`. -/
def resolve_unpacker_arg (cname : String) (cmeths : List String)
    (unpacker_arg : RValue) : Except RubyError RValue :=
  match unpacker_arg with
  | .vnil => .ok .vnil
  | .vsym s => rb_obj_method cname cmeths s
  | .vstr s => rb_obj_method cname cmeths s
  | ua => ruby_method_call_of ua

/-- Lines 150–179 of `Factory_register_type`, shared by both arities:
`ext_type = rb_num2int(argv[0])`; range check `[-128, 127]`;
`rb_type(argv[1]) == T_CLASS` check; packer hook normalization; unpacker
hook resolution; finally `put` on both registries. A raise returns the
factory unchanged, as the C code has not touched `fc` before the two
`put` calls. -/
def Factory_register_type_body (fc : Factory)
    (arg0 arg1 packer_arg unpacker_arg : RValue) :
    Factory × Except RubyError RValue :=
  match rb_num2int arg0 with
  | .error e => (fc, .error e)
  | .ok ext_type =>
    if ext_type < -128 ∨ 127 < ext_type then (fc, .error .rangeError)
    else
      match arg1 with
      | .vclass cname cmeths =>
        match resolve_packer_arg packer_arg with
        | .error e => (fc, .error e)
        | .ok packer_proc =>
          match resolve_unpacker_arg cname cmeths unpacker_arg with
          | .error e => (fc, .error e)
          | .ok unpacker_proc =>
            ({ fc with
                pkrg := msgpack_packer_ext_registry_put fc.pkrg cname
                  ext_type packer_proc
                ukrg := msgpack_unpacker_ext_registry_put fc.ukrg
                  ext_type unpacker_proc },
             .ok .vnil)
      | _ => (fc, .error .argError)

/-- `Factory_register_type`: the arity switch of lines 131–148. Two
arguments default the hooks to the symbols `:to_msgpack_ext` and
`:from_msgpack_ext`; three arguments require a `Hash` third argument and
read its `:packer` and `:unpacker` entries; any other arity raises
`ArgumentError`. -/
def Factory_register_type (fc : Factory) (argv : List RValue) :
    Factory × Except RubyError RValue :=
  match argv with
  | [arg0, arg1] =>
      Factory_register_type_body fc arg0 arg1
        (.vsym "to_msgpack_ext") (.vsym "from_msgpack_ext")
  | [arg0, arg1, options] =>
      match options with
      | .vhash entries =>
          Factory_register_type_body fc arg0 arg1
            (rb_hash_aref entries "packer") (rb_hash_aref entries "unpacker")
      | _ => (fc, .error .argError)
  | _ => (fc, .error .argError)

/-! ### Helper lemmas about the registries and the registration body -/

theorem assocGet_assocPut_self {α β : Type} [DecidableEq α] (k : α) (v : β)
    (l : List (α × β)) : assocGet k (assocPut k v l) = some v := by
  induction l with
  | nil => simp [assocPut, assocGet]
  | cons hd tl ih =>
    obtain ⟨k', v'⟩ := hd
    by_cases h : k' = k
    · simp [assocPut, assocGet, h]
    · simp [assocPut, assocGet, h, ih]

theorem resolve_packer_arg_error {pa : RValue} {e : RubyError}
    (h : resolve_packer_arg pa = .error e) : e = .noMethodError := by
  unfold resolve_packer_arg at h
  split at h
  · cases h
  · unfold ruby_to_proc at h
    split at h <;> (try cases h) <;> (try rfl)
    split at h <;> cases h <;> rfl

theorem resolve_unpacker_arg_error {cname : String} {cmeths : List String}
    {ua : RValue} {e : RubyError}
    (h : resolve_unpacker_arg cname cmeths ua = .error e) :
    e = .nameError := by
  unfold resolve_unpacker_arg at h
  split at h <;> (try cases h) <;>
    (try (unfold rb_obj_method at h; split at h <;> cases h <;> rfl))
  unfold ruby_method_call_of at h
  split at h <;> (try cases h) <;> (try rfl) <;>
    (split at h <;> cases h <;> rfl)

theorem register_body_cases (fc : Factory) (arg0 arg1 pa ua : RValue) :
    (Factory_register_type_body fc arg0 arg1 pa ua).1 = fc ∨
      (Factory_register_type_body fc arg0 arg1 pa ua).2 = .ok .vnil := by
  unfold Factory_register_type_body
  split
  · left; rfl
  · split
    · left; rfl
    · split
      · split
        · left; rfl
        · split
          · left; rfl
          · right; rfl
      · left; rfl

theorem register_type_cases (fc : Factory) (argv : List RValue) :
    (Factory_register_type fc argv).1 = fc ∨
      (Factory_register_type fc argv).2 = .ok .vnil := by
  unfold Factory_register_type
  split
  · exact register_body_cases fc _ _ _ _
  · split
    · exact register_body_cases fc _ _ _ _
    · left; rfl
  · left; rfl

/-- C1: a `register_type` call that raises leaves the factory — both its
encode registry and its decode registry — exactly as it was. -/
theorem register_type_failure_leaves_factory_unchanged (fc : Factory)
    (argv : List RValue) (e : RubyError)
    (h : (Factory_register_type fc argv).2 = .error e) :
    (Factory_register_type fc argv).1 = fc := by
  rcases register_type_cases fc argv with h1 | h2
  · exact h1
  · rw [h2] at h; exact Except.noConfusion h

/-- C1 witness: registering code 300 (out of range) on a fresh factory
raises a `RangeError` and leaves the factory unchanged. -/
theorem register_type_failure_leaves_factory_unchanged_w :
    (Factory_register_type Factory_alloc
        [.vint 300, .vclass "Time" ["from_msgpack_ext"]]).2
        = .error .rangeError ∧
      (Factory_register_type Factory_alloc
        [.vint 300, .vclass "Time" ["from_msgpack_ext"]]).1 = Factory_alloc :=
  ⟨rfl,
    register_type_failure_leaves_factory_unchanged Factory_alloc
      [.vint 300, .vclass "Time" ["from_msgpack_ext"]] .rangeError rfl⟩

theorem register_body_out_of_range (fc : Factory) (n : Int)
    (arg1 pa ua : RValue) (h : n < -128 ∨ 127 < n) :
    Factory_register_type_body fc (.vint n) arg1 pa ua
      = (fc, .error .rangeError) := by
  by_cases hbig : n < -2147483648 ∨ 2147483647 < n
  · simp [Factory_register_type_body, rb_num2int, hbig]
  · simp [Factory_register_type_body, rb_num2int, hbig, h]

theorem register_body_in_range_not_range_error (fc : Factory) (n : Int)
    (arg1 pa ua : RValue) (hlo : -128 ≤ n) (hhi : n ≤ 127) :
    (Factory_register_type_body fc (.vint n) arg1 pa ua).2
      ≠ .error .rangeError := by
  have hbig : ¬ (n < -2147483648 ∨ 2147483647 < n) := by omega
  have hsm : ¬ (n < -128 ∨ 127 < n) := by omega
  unfold Factory_register_type_body
  simp only [rb_num2int, if_neg hbig, if_neg hsm]
  cases arg1 with
  | vclass cname cmeths =>
      cases hp : resolve_packer_arg pa with
      | error e =>
          have he := resolve_packer_arg_error hp
          subst he; simp
      | ok pp =>
          cases hu : resolve_unpacker_arg cname cmeths ua with
          | error e =>
              have he := resolve_unpacker_arg_error hu
              subst he; simp [hu]
          | ok up => simp [hu]
  | vnil => simp
  | vint m => simp
  | vsym s => simp
  | vstr s => simp
  | vmodule m => simp
  | vhash es => simp
  | vproc p => simp
  | vobj i ms => simp

theorem register_body_not_class (fc : Factory) (n : Int)
    (arg1 pa ua : RValue) (hlo : -128 ≤ n) (hhi : n ≤ 127)
    (hnc : ∀ cname cmeths, arg1 ≠ .vclass cname cmeths) :
    Factory_register_type_body fc (.vint n) arg1 pa ua
      = (fc, .error .argError) := by
  have hbig : ¬ (n < -2147483648 ∨ 2147483647 < n) := by omega
  have hsm : ¬ (n < -128 ∨ 127 < n) := by omega
  unfold Factory_register_type_body
  simp only [rb_num2int, if_neg hbig, if_neg hsm]

theorem register_body_class_not_arg_error (fc : Factory) (n : Int)
    (cname : String) (cmeths : List String) (pa ua : RValue)
    (hlo : -128 ≤ n) (hhi : n ≤ 127) :
    (Factory_register_type_body fc (.vint n) (.vclass cname cmeths) pa ua).2
      ≠ .error .argError := by
  have hbig : ¬ (n < -2147483648 ∨ 2147483647 < n) := by omega
  have hsm : ¬ (n < -128 ∨ 127 < n) := by omega
  unfold Factory_register_type_body
  simp only [rb_num2int, if_neg hbig, if_neg hsm]
  cases hp : resolve_packer_arg pa with
  | error e =>
      have he := resolve_packer_arg_error hp
      subst he; simp
  | ok pp =>
      cases hu : resolve_unpacker_arg cname cmeths ua with
      | error e =>
          have he := resolve_unpacker_arg_error hu
          subst he; simp [hu]
      | ok up => simp [hu]

/-- C3: in both the two-argument form and the three-argument form (with a
mapping third argument), a code whose integer value is outside
`[-128, 127]` makes `register_type` fail with a `RangeError`, and a code
inside that range never produces a `RangeError`. -/
theorem register_type_range_check (fc : Factory) (n : Int) (arg1 : RValue)
    (argv : List RValue)
    (hform : argv = [.vint n, arg1] ∨
      ∃ entries, argv = [.vint n, arg1, .vhash entries]) :
    ((n < -128 ∨ 127 < n) →
        (Factory_register_type fc argv).2 = .error .rangeError) ∧
      (-128 ≤ n → n ≤ 127 →
        (Factory_register_type fc argv).2 ≠ .error .rangeError) := by
  constructor
  · intro hout
    rcases hform with rfl | ⟨entries, rfl⟩
    · show (Factory_register_type_body fc (.vint n) arg1 _ _).2 = _
      rw [register_body_out_of_range fc n arg1 _ _ hout]
    · show (Factory_register_type_body fc (.vint n) arg1 _ _).2 = _
      rw [register_body_out_of_range fc n arg1 _ _ hout]
  · intro hlo hhi
    rcases hform with rfl | ⟨entries, rfl⟩
    · exact register_body_in_range_not_range_error fc n arg1 _ _ hlo hhi
    · exact register_body_in_range_not_range_error fc n arg1 _ _ hlo hhi

/-- C3 witness: code 200 raises a `RangeError` in the two-argument form,
and code 5 does not raise one. -/
theorem register_type_range_check_w :
    (Factory_register_type Factory_alloc
        [.vint 200, .vclass "Time" ["from_msgpack_ext"]]).2
        = .error .rangeError ∧
      (Factory_register_type Factory_alloc
        [.vint 5, .vclass "Time" ["from_msgpack_ext"]]).2
        ≠ .error .rangeError :=
  ⟨(register_type_range_check Factory_alloc 200
      (.vclass "Time" ["from_msgpack_ext"]) _ (Or.inl rfl)).1
      (by decide),
    (register_type_range_check Factory_alloc 5
      (.vclass "Time" ["from_msgpack_ext"]) _ (Or.inl rfl)).2
      (by decide) (by decide)⟩

/-- C6: with a valid form and an in-range integer code, `register_type`
fails with an `ArgumentError` when the second argument is not a class
object (e.g. a module or a non-type value), and raises no
`ArgumentError` when it is a class object. -/
theorem register_type_class_check (fc : Factory) (n : Int) (arg1 : RValue)
    (argv : List RValue)
    (hform : argv = [.vint n, arg1] ∨
      ∃ entries, argv = [.vint n, arg1, .vhash entries])
    (hlo : -128 ≤ n) (hhi : n ≤ 127) :
    ((∀ cname cmeths, arg1 ≠ .vclass cname cmeths) →
        Factory_register_type fc argv = (fc, .error .argError)) ∧
      (∀ cname cmeths, arg1 = .vclass cname cmeths →
        (Factory_register_type fc argv).2 ≠ .error .argError) := by
  constructor
  · intro hnc
    rcases hform with rfl | ⟨entries, rfl⟩
    · exact register_body_not_class fc n arg1
        (.vsym "to_msgpack_ext") (.vsym "from_msgpack_ext") hlo hhi hnc
    · exact register_body_not_class fc n arg1
        (rb_hash_aref entries "packer") (rb_hash_aref entries "unpacker")
        hlo hhi hnc
  · intro cname cmeths hcl
    subst hcl
    rcases hform with rfl | ⟨entries, rfl⟩
    · exact register_body_class_not_arg_error fc n cname cmeths _ _ hlo hhi
    · exact register_body_class_not_arg_error fc n cname cmeths _ _ hlo hhi

/-- C6 witness: registering a module raises an `ArgumentError`; the same
call with a class raises no `ArgumentError`. -/
theorem register_type_class_check_w :
    Factory_register_type Factory_alloc [.vint 1, .vmodule "Comparable"]
        = (Factory_alloc, .error .argError) ∧
      (Factory_register_type Factory_alloc
        [.vint 1, .vclass "Time" ["from_msgpack_ext"]]).2
        ≠ .error .argError :=
  ⟨(register_type_class_check Factory_alloc 1 (.vmodule "Comparable") _
      (Or.inl rfl) (by decide) (by decide)).1
      (fun cname cmeths h => RValue.noConfusion h),
    (register_type_class_check Factory_alloc 1
      (.vclass "Time" ["from_msgpack_ext"]) _
      (Or.inl rfl) (by decide) (by decide)).2 "Time" ["from_msgpack_ext"] rfl⟩

/-- C7: `register_type` raises an `ArgumentError` for every argument
count other than 2 or 3; factory construction raises an `ArgumentError`
for every argument count other than 0; with 0 arguments construction
succeeds and the allocated factory has empty registries. -/
theorem arity_contract :
    (∀ (fc : Factory) (argv : List RValue),
        argv.length ≠ 2 → argv.length ≠ 3 →
        Factory_register_type fc argv = (fc, .error .argError)) ∧
      (∀ (fc : Factory) (argc : Nat), argc ≠ 0 →
        Factory_init fc argc = (fc, .error .argError)) ∧
      (∀ fc : Factory, Factory_init fc 0 = (fc, .ok .vnil)) ∧
      Factory_alloc.pkrg.table = [] ∧ Factory_alloc.ukrg.table = [] := by
  refine ⟨?_, ?_, fun fc => rfl, rfl, rfl⟩
  · intro fc argv h2 h3
    match argv with
    | [] => rfl
    | [a] => rfl
    | [a, b] => simp at h2
    | [a, b, c] => simp at h3
    | a :: b :: c :: d :: rest => rfl
  · intro fc argc h
    match argc with
    | 0 => exact absurd rfl h
    | k + 1 => rfl

/-- C7 witness: one argument to `register_type` and one argument to the
factory constructor both raise `ArgumentError`; zero arguments construct
an empty factory. -/
theorem arity_contract_w :
    Factory_register_type Factory_alloc [.vint 1]
        = (Factory_alloc, .error .argError) ∧
      Factory_init Factory_alloc 1 = (Factory_alloc, .error .argError) ∧
      Factory_init Factory_alloc 0 = (Factory_alloc, .ok .vnil) :=
  ⟨arity_contract.1 Factory_alloc [.vint 1] (by decide) (by decide),
    arity_contract.2.1 Factory_alloc 1 (by decide),
    arity_contract.2.2.1 Factory_alloc⟩

/-- C9: in the three-argument form, the mapping check on the options
argument precedes the code range check and the type check — whatever the
first two arguments are (even an out-of-range code or a non-class
value), a non-Hash third argument makes the call fail with the
`ArgumentError` for the malformed options, leaving the factory
unchanged. -/
theorem options_check_precedes_range_and_type (fc : Factory)
    (a0 a1 opts : RValue) (hopts : ∀ entries, opts ≠ .vhash entries) :
    Factory_register_type fc [a0, a1, opts] = (fc, .error .argError) := by
  cases opts with
  | vhash entries => exact absurd rfl (hopts entries)
  | vnil => rfl
  | vint m => rfl
  | vsym s => rfl
  | vstr s => rfl
  | vmodule m => rfl
  | vclass c ms => rfl
  | vproc p => rfl
  | vobj i ms => rfl

/-- C9 witness: out-of-range code 300 together with a non-Hash options
argument raises the options `ArgumentError`, not a `RangeError`. -/
theorem options_check_precedes_range_and_type_w :
    Factory_register_type Factory_alloc [.vint 300, .vnil, .vint 5]
      = (Factory_alloc, .error .argError) :=
  options_check_precedes_range_and_type Factory_alloc (.vint 300) .vnil
    (.vint 5) (fun entries h => RValue.noConfusion h)

/-- C10: in both valid forms, the first argument is coerced to an
integer before the range check; a first argument with no integer value
makes the call fail with a `TypeError` (not a `RangeError`), and the
factory is left unchanged. -/
theorem code_coercion_type_error (fc : Factory) (a0 a1 : RValue)
    (argv : List RValue)
    (hform : argv = [a0, a1] ∨ ∃ entries, argv = [a0, a1, .vhash entries])
    (hnotint : ∀ n : Int, a0 ≠ .vint n) :
    Factory_register_type fc argv = (fc, .error .typeError) := by
  have hbody : ∀ pa ua,
      Factory_register_type_body fc a0 a1 pa ua = (fc, .error .typeError) := by
    intro pa ua
    cases a0 with
    | vint n => exact absurd rfl (hnotint n)
    | vnil => rfl
    | vsym s => rfl
    | vstr s => rfl
    | vmodule m => rfl
    | vclass c ms => rfl
    | vhash es => rfl
    | vproc p => rfl
    | vobj i ms => rfl
  rcases hform with rfl | ⟨entries, rfl⟩
  · exact hbody (.vsym "to_msgpack_ext") (.vsym "from_msgpack_ext")
  · exact hbody (rb_hash_aref entries "packer") (rb_hash_aref entries "unpacker")

/-- C10 witness: a Symbol code raises a `TypeError` and leaves the
factory unchanged. -/
theorem code_coercion_type_error_w :
    Factory_register_type Factory_alloc
        [.vsym "a", .vclass "Time" ["from_msgpack_ext"]]
      = (Factory_alloc, .error .typeError) :=
  code_coercion_type_error Factory_alloc (.vsym "a")
    (.vclass "Time" ["from_msgpack_ext"]) _ (Or.inl rfl)
    (fun n h => RValue.noConfusion h)

theorem register_body_success (fc : Factory) (n : Int)
    (cname : String) (cmeths : List String) (pa ua pp up : RValue)
    (hlo : -128 ≤ n) (hhi : n ≤ 127)
    (hp : resolve_packer_arg pa = .ok pp)
    (hu : resolve_unpacker_arg cname cmeths ua = .ok up) :
    Factory_register_type_body fc (.vint n) (.vclass cname cmeths) pa ua
      = ({ fc with
            pkrg := msgpack_packer_ext_registry_put fc.pkrg cname n pp
            ukrg := msgpack_unpacker_ext_registry_put fc.ukrg n up },
         .ok .vnil) := by
  have hbig : ¬ (n < -2147483648 ∨ 2147483647 < n) := by omega
  have hsm : ¬ (n < -128 ∨ 127 < n) := by omega
  unfold Factory_register_type_body
  simp only [rb_num2int, if_neg hbig, if_neg hsm, hp, hu]

/-- C2: snapshot isolation. A packer or unpacker built before a
registration carries a duplicate of the factory's registries at that
moment and does not see the new mapping; a packer or unpacker built
after the registration does. -/
theorem packer_snapshot_isolation (f : Factory) (code : Int)
    (cname : String) (cmeths : List String)
    (hlo : -128 ≤ code) (hhi : code ≤ 127)
    (hm : "from_msgpack_ext" ∈ cmeths)
    (hnewp : packer_registry_lookup f.pkrg cname = none)
    (hnewu : unpacker_registry_lookup f.ukrg code = none) :
    (Factory_register_type f [.vint code, .vclass cname cmeths]).2
        = .ok .vnil ∧
      packer_registry_lookup (Factory_packer f).ext_registry cname = none ∧
      unpacker_registry_lookup (Factory_unpacker f).ext_registry code
        = none ∧
      packer_registry_lookup
          (Factory_packer
            (Factory_register_type f
              [.vint code, .vclass cname cmeths]).1).ext_registry cname
        = some (code, .vproc (.symProc "to_msgpack_ext")) ∧
      unpacker_registry_lookup
          (Factory_unpacker
            (Factory_register_type f
              [.vint code, .vclass cname cmeths]).1).ext_registry code
        = some (.vproc (.boundMethod cname "from_msgpack_ext")) := by
  have hp : resolve_packer_arg (.vsym "to_msgpack_ext")
      = .ok (.vproc (.symProc "to_msgpack_ext")) := rfl
  have hu : resolve_unpacker_arg cname cmeths (.vsym "from_msgpack_ext")
      = .ok (.vproc (.boundMethod cname "from_msgpack_ext")) := by
    simp [resolve_unpacker_arg, rb_obj_method, hm]
  have hfr : Factory_register_type f [.vint code, .vclass cname cmeths]
      = Factory_register_type_body f (.vint code) (.vclass cname cmeths)
        (.vsym "to_msgpack_ext") (.vsym "from_msgpack_ext") := rfl
  rw [hfr, register_body_success f code cname cmeths _ _ _ _ hlo hhi hp hu]
  refine ⟨rfl, hnewp, hnewu, ?_, ?_⟩
  · simpa [Factory_packer, msgpack_packer_ext_registry_dup,
      packer_registry_lookup, msgpack_packer_ext_registry_put] using
      assocGet_assocPut_self cname
        (code, RValue.vproc (.symProc "to_msgpack_ext")) f.pkrg.table
  · simpa [Factory_unpacker, msgpack_unpacker_ext_registry_dup,
      unpacker_registry_lookup, msgpack_unpacker_ext_registry_put] using
      assocGet_assocPut_self code
        (RValue.vproc (.boundMethod cname "from_msgpack_ext")) f.ukrg.table

/-- C2 witness: a concrete factory, a packer taken before registering
code 1 for class `Time`, and a packer taken after. -/
theorem packer_snapshot_isolation_w :
    (Factory_register_type Factory_alloc
        [.vint 1, .vclass "Time" ["from_msgpack_ext"]]).2 = .ok .vnil ∧
      packer_registry_lookup (Factory_packer Factory_alloc).ext_registry
        "Time" = none ∧
      unpacker_registry_lookup
        (Factory_unpacker Factory_alloc).ext_registry 1 = none ∧
      packer_registry_lookup
          (Factory_packer
            (Factory_register_type Factory_alloc
              [.vint 1, .vclass "Time" ["from_msgpack_ext"]]).1).ext_registry
          "Time"
        = some (1, .vproc (.symProc "to_msgpack_ext")) ∧
      unpacker_registry_lookup
          (Factory_unpacker
            (Factory_register_type Factory_alloc
              [.vint 1, .vclass "Time" ["from_msgpack_ext"]]).1).ext_registry
          1
        = some (.vproc (.boundMethod "Time" "from_msgpack_ext")) :=
  packer_snapshot_isolation Factory_alloc 1 "Time" ["from_msgpack_ext"]
    (by decide) (by decide) (by simp) rfl rfl

/-- C8: last-write-wins. Registering the same code and class a second
time with different hooks replaces the prior entry on both sides: the
registries, and packers/unpackers constructed afterwards, observe only
the latest hook pair. -/
theorem register_type_last_write_wins (f : Factory) (code : Int)
    (cname : String) (cmeths : List String) (a b c d : Nat)
    (hlo : -128 ≤ code) (hhi : code ≤ 127) :
    (Factory_register_type
        (Factory_register_type f
          [.vint code, .vclass cname cmeths,
            .vhash [("packer", .vproc (.plain a)),
              ("unpacker", .vproc (.plain b))]]).1
        [.vint code, .vclass cname cmeths,
          .vhash [("packer", .vproc (.plain c)),
            ("unpacker", .vproc (.plain d))]]).2 = .ok .vnil ∧
      packer_registry_lookup
          (Factory_register_type
            (Factory_register_type f
              [.vint code, .vclass cname cmeths,
                .vhash [("packer", .vproc (.plain a)),
                  ("unpacker", .vproc (.plain b))]]).1
            [.vint code, .vclass cname cmeths,
              .vhash [("packer", .vproc (.plain c)),
                ("unpacker", .vproc (.plain d))]]).1.pkrg cname
        = some (code, .vproc (.plain c)) ∧
      unpacker_registry_lookup
          (Factory_register_type
            (Factory_register_type f
              [.vint code, .vclass cname cmeths,
                .vhash [("packer", .vproc (.plain a)),
                  ("unpacker", .vproc (.plain b))]]).1
            [.vint code, .vclass cname cmeths,
              .vhash [("packer", .vproc (.plain c)),
                ("unpacker", .vproc (.plain d))]]).1.ukrg code
        = some (.vproc (.callMethod (.plain d))) ∧
      packer_registry_lookup
          (Factory_packer
            (Factory_register_type
              (Factory_register_type f
                [.vint code, .vclass cname cmeths,
                  .vhash [("packer", .vproc (.plain a)),
                    ("unpacker", .vproc (.plain b))]]).1
              [.vint code, .vclass cname cmeths,
                .vhash [("packer", .vproc (.plain c)),
                  ("unpacker", .vproc (.plain d))]]).1).ext_registry cname
        = some (code, .vproc (.plain c)) ∧
      unpacker_registry_lookup
          (Factory_unpacker
            (Factory_register_type
              (Factory_register_type f
                [.vint code, .vclass cname cmeths,
                  .vhash [("packer", .vproc (.plain a)),
                    ("unpacker", .vproc (.plain b))]]).1
              [.vint code, .vclass cname cmeths,
                .vhash [("packer", .vproc (.plain c)),
                  ("unpacker", .vproc (.plain d))]]).1).ext_registry code
        = some (.vproc (.callMethod (.plain d))) := by
  have h1 : Factory_register_type f
      [.vint code, .vclass cname cmeths,
        .vhash [("packer", .vproc (.plain a)),
          ("unpacker", .vproc (.plain b))]]
      = ({ f with
            pkrg := msgpack_packer_ext_registry_put f.pkrg cname code
              (.vproc (.plain a))
            ukrg := msgpack_unpacker_ext_registry_put f.ukrg code
              (.vproc (.callMethod (.plain b))) },
         .ok .vnil) := by
    have hfr : Factory_register_type f
        [.vint code, .vclass cname cmeths,
          .vhash [("packer", .vproc (.plain a)),
            ("unpacker", .vproc (.plain b))]]
        = Factory_register_type_body f (.vint code) (.vclass cname cmeths)
          (.vproc (.plain a)) (.vproc (.plain b)) := rfl
    rw [hfr]
    exact register_body_success f code cname cmeths _ _ _ _ hlo hhi rfl rfl
  rw [h1]
  have h2 : Factory_register_type
      { f with
          pkrg := msgpack_packer_ext_registry_put f.pkrg cname code
            (.vproc (.plain a))
          ukrg := msgpack_unpacker_ext_registry_put f.ukrg code
            (.vproc (.callMethod (.plain b))) }
      [.vint code, .vclass cname cmeths,
        .vhash [("packer", .vproc (.plain c)),
          ("unpacker", .vproc (.plain d))]]
      = ({ f with
            pkrg := msgpack_packer_ext_registry_put
              (msgpack_packer_ext_registry_put f.pkrg cname code
                (.vproc (.plain a))) cname code (.vproc (.plain c))
            ukrg := msgpack_unpacker_ext_registry_put
              (msgpack_unpacker_ext_registry_put f.ukrg code
                (.vproc (.callMethod (.plain b)))) code
              (.vproc (.callMethod (.plain d))) },
         .ok .vnil) := by
    have hfr : Factory_register_type
        { f with
            pkrg := msgpack_packer_ext_registry_put f.pkrg cname code
              (.vproc (.plain a))
            ukrg := msgpack_unpacker_ext_registry_put f.ukrg code
              (.vproc (.callMethod (.plain b))) }
        [.vint code, .vclass cname cmeths,
          .vhash [("packer", .vproc (.plain c)),
            ("unpacker", .vproc (.plain d))]]
        = Factory_register_type_body
          { f with
              pkrg := msgpack_packer_ext_registry_put f.pkrg cname code
                (.vproc (.plain a))
              ukrg := msgpack_unpacker_ext_registry_put f.ukrg code
                (.vproc (.callMethod (.plain b))) }
          (.vint code) (.vclass cname cmeths)
          (.vproc (.plain c)) (.vproc (.plain d)) := rfl
    rw [hfr]
    exact register_body_success _ code cname cmeths _ _ _ _ hlo hhi rfl rfl
  rw [h2]
  refine ⟨rfl, ?_, ?_, ?_, ?_⟩ <;>
    simp [packer_registry_lookup, unpacker_registry_lookup,
      msgpack_packer_ext_registry_put, msgpack_unpacker_ext_registry_put,
      Factory_packer, Factory_unpacker, msgpack_packer_ext_registry_dup,
      msgpack_unpacker_ext_registry_dup, assocGet_assocPut_self]

/-- C8 witness: registering code 3 for class `Point` twice with
different proc hooks leaves only the second hook pair observable. -/
theorem register_type_last_write_wins_w :
    (Factory_register_type
        (Factory_register_type Factory_alloc
          [.vint 3, .vclass "Point" [],
            .vhash [("packer", .vproc (.plain 10)),
              ("unpacker", .vproc (.plain 11))]]).1
        [.vint 3, .vclass "Point" [],
          .vhash [("packer", .vproc (.plain 20)),
            ("unpacker", .vproc (.plain 21))]]).2 = .ok .vnil ∧
      packer_registry_lookup
          (Factory_register_type
            (Factory_register_type Factory_alloc
              [.vint 3, .vclass "Point" [],
                .vhash [("packer", .vproc (.plain 10)),
                  ("unpacker", .vproc (.plain 11))]]).1
            [.vint 3, .vclass "Point" [],
              .vhash [("packer", .vproc (.plain 20)),
                ("unpacker", .vproc (.plain 21))]]).1.pkrg "Point"
        = some (3, .vproc (.plain 20)) ∧
      unpacker_registry_lookup
          (Factory_register_type
            (Factory_register_type Factory_alloc
              [.vint 3, .vclass "Point" [],
                .vhash [("packer", .vproc (.plain 10)),
                  ("unpacker", .vproc (.plain 11))]]).1
            [.vint 3, .vclass "Point" [],
              .vhash [("packer", .vproc (.plain 20)),
                ("unpacker", .vproc (.plain 21))]]).1.ukrg 3
        = some (.vproc (.callMethod (.plain 21))) :=
  ⟨(register_type_last_write_wins Factory_alloc 3 "Point" [] 10 11 20 21
      (by decide) (by decide)).1,
    (register_type_last_write_wins Factory_alloc 3 "Point" [] 10 11 20 21
      (by decide) (by decide)).2.1,
    (register_type_last_write_wins Factory_alloc 3 "Point" [] 10 11 20 21
      (by decide) (by decide)).2.2.1⟩

theorem register_body_packer_error (fc : Factory) (n : Int)
    (cname : String) (cmeths : List String) (pa ua : RValue) (e : RubyError)
    (hlo : -128 ≤ n) (hhi : n ≤ 127)
    (hp : resolve_packer_arg pa = .error e) :
    Factory_register_type_body fc (.vint n) (.vclass cname cmeths) pa ua
      = (fc, .error e) := by
  have hbig : ¬ (n < -2147483648 ∨ 2147483647 < n) := by omega
  have hsm : ¬ (n < -128 ∨ 127 < n) := by omega
  unfold Factory_register_type_body
  simp only [rb_num2int, if_neg hbig, if_neg hsm, hp]

theorem register_body_unpacker_error (fc : Factory) (n : Int)
    (cname : String) (cmeths : List String) (pa ua pp : RValue)
    (e : RubyError) (hlo : -128 ≤ n) (hhi : n ≤ 127)
    (hp : resolve_packer_arg pa = .ok pp)
    (hu : resolve_unpacker_arg cname cmeths ua = .error e) :
    Factory_register_type_body fc (.vint n) (.vclass cname cmeths) pa ua
      = (fc, .error e) := by
  have hbig : ¬ (n < -2147483648 ∨ 2147483647 < n) := by omega
  have hsm : ¬ (n < -128 ∨ 127 < n) := by omega
  unfold Factory_register_type_body
  simp only [rb_num2int, if_neg hbig, if_neg hsm, hp, hu]

/-- C4 counterexample: the claim "registration does not eagerly resolve
either default method, so registering a type that lacks these methods
succeeds" is false — the two-argument form eagerly resolves the default
unpacker name `from_msgpack_ext` on the class via `rb_obj_method`, so
registering a class that lacks it raises `NameError` instead of
succeeding. -/
theorem register_type_two_arg_defaults_cex :
    (Factory_register_type Factory_alloc [.vint 0, .vclass "Point" []]).2
      = .error .nameError := rfl

/-- C4 amended: in the two-argument form the packer hook defaults to the
lazily-applied symbol proc for `to_msgpack_ext` (nothing is looked up on
the class for it — in particular the class need not define
`to_msgpack_ext`), but the default unpacker hook `from_msgpack_ext` is
eagerly resolved on the associated type at registration: registration
succeeds and stores the symbol proc (encode side) plus the bound method
object (decode side) iff the class object defines `from_msgpack_ext`,
and fails with `NameError` otherwise. -/
theorem register_type_two_arg_defaults (fc : Factory) (n : Int)
    (cname : String) (cmeths : List String)
    (hlo : -128 ≤ n) (hhi : n ≤ 127) :
    ("from_msgpack_ext" ∈ cmeths →
        Factory_register_type fc [.vint n, .vclass cname cmeths]
          = ({ fc with
                pkrg := msgpack_packer_ext_registry_put fc.pkrg cname n
                  (.vproc (.symProc "to_msgpack_ext"))
                ukrg := msgpack_unpacker_ext_registry_put fc.ukrg n
                  (.vproc (.boundMethod cname "from_msgpack_ext")) },
             .ok .vnil)) ∧
      ("from_msgpack_ext" ∉ cmeths →
        Factory_register_type fc [.vint n, .vclass cname cmeths]
          = (fc, .error .nameError)) := by
  have hfr : Factory_register_type fc [.vint n, .vclass cname cmeths]
      = Factory_register_type_body fc (.vint n) (.vclass cname cmeths)
        (.vsym "to_msgpack_ext") (.vsym "from_msgpack_ext") := rfl
  constructor
  · intro hm
    rw [hfr]
    exact register_body_success fc n cname cmeths _ _ _ _ hlo hhi rfl
      (by simp [resolve_unpacker_arg, rb_obj_method, hm])
  · intro hm
    rw [hfr]
    exact register_body_unpacker_error fc n cname cmeths _ _
      (.vproc (.symProc "to_msgpack_ext")) .nameError hlo hhi rfl
      (by simp [resolve_unpacker_arg, rb_obj_method, hm])

/-- C4 witness: a class defining `from_msgpack_ext` registers with the
lazy symbol-proc packer default and the eagerly bound unpacker method; a
class without it makes registration fail. -/
theorem register_type_two_arg_defaults_w :
    Factory_register_type Factory_alloc
        [.vint 0, .vclass "Time" ["from_msgpack_ext"]]
      = ({ Factory_alloc with
            pkrg := msgpack_packer_ext_registry_put Factory_alloc.pkrg
              "Time" 0 (.vproc (.symProc "to_msgpack_ext"))
            ukrg := msgpack_unpacker_ext_registry_put Factory_alloc.ukrg
              0 (.vproc (.boundMethod "Time" "from_msgpack_ext")) },
         .ok .vnil) ∧
      Factory_register_type Factory_alloc [.vint 7, .vclass "Date" []]
        = (Factory_alloc, .error .nameError) :=
  ⟨(register_type_two_arg_defaults Factory_alloc 0 "Time"
      ["from_msgpack_ext"] (by decide) (by decide)).1 (by simp),
    (register_type_two_arg_defaults Factory_alloc 7 "Date" []
      (by decide) (by decide)).2 (by simp)⟩

/-- C5 counterexample: the claim that a present unpacker entry other
than a name is "normalized the same way as the packer entry" is false —
a duck-typed object defining `to_proc` but not `call` is accepted as a
packer entry (normalized via `to_proc`) yet rejected with `NameError` as
an unpacker entry (normalized via `.method(:call)`). -/
theorem register_type_hook_normalization_cex :
    (Factory_register_type Factory_alloc
        [.vint 1, .vclass "T" [],
          .vhash [("packer", .vobj 0 ["to_proc"])]]).2 = .ok .vnil ∧
      (Factory_register_type Factory_alloc
        [.vint 1, .vclass "T" [],
          .vhash [("unpacker", .vobj 0 ["to_proc"])]]).2
        = .error .nameError :=
  ⟨rfl, rfl⟩

/-- C5 amended: in the three-argument form (with in-range code), a
present packer entry is normalized via `to_proc` (a Proc passes
through, a duck-typed object must define `to_proc`); a present unpacker
entry given as a Symbol or String is eagerly resolved into a method
bound to the associated type; any other present unpacker entry is
normalized by extracting its `call` method via `.method(:call)` — a
normalization different from the packer side, requiring a `call` method
rather than `to_proc`; an absent packer or unpacker entry stores a nil
(unset) hook in the corresponding registry. -/
theorem register_type_hook_normalization (fc : Factory) (n : Int)
    (cname : String) (cmeths : List String)
    (entries : List (String × RValue))
    (hlo : -128 ≤ n) (hhi : n ≤ 127) :
    (rb_hash_aref entries "packer" = .vnil →
        rb_hash_aref entries "unpacker" = .vnil →
        Factory_register_type fc
            [.vint n, .vclass cname cmeths, .vhash entries]
          = ({ fc with
                pkrg := msgpack_packer_ext_registry_put fc.pkrg cname n .vnil
                ukrg := msgpack_unpacker_ext_registry_put fc.ukrg n .vnil },
             .ok .vnil)) ∧
      (∀ p : HookProc, rb_hash_aref entries "packer" = .vproc p →
        rb_hash_aref entries "unpacker" = .vnil →
        Factory_register_type fc
            [.vint n, .vclass cname cmeths, .vhash entries]
          = ({ fc with
                pkrg := msgpack_packer_ext_registry_put fc.pkrg cname n
                  (.vproc p)
                ukrg := msgpack_unpacker_ext_registry_put fc.ukrg n .vnil },
             .ok .vnil)) ∧
      (∀ (i : Nat) (ms : List String),
        rb_hash_aref entries "packer" = .vobj i ms → "to_proc" ∈ ms →
        rb_hash_aref entries "unpacker" = .vnil →
        Factory_register_type fc
            [.vint n, .vclass cname cmeths, .vhash entries]
          = ({ fc with
                pkrg := msgpack_packer_ext_registry_put fc.pkrg cname n
                  (.vproc (.objToProc i))
                ukrg := msgpack_unpacker_ext_registry_put fc.ukrg n .vnil },
             .ok .vnil)) ∧
      (∀ s : String, rb_hash_aref entries "packer" = .vnil →
        rb_hash_aref entries "unpacker" = .vsym s → s ∈ cmeths →
        Factory_register_type fc
            [.vint n, .vclass cname cmeths, .vhash entries]
          = ({ fc with
                pkrg := msgpack_packer_ext_registry_put fc.pkrg cname n .vnil
                ukrg := msgpack_unpacker_ext_registry_put fc.ukrg n
                  (.vproc (.boundMethod cname s)) },
             .ok .vnil)) ∧
      (∀ s : String, rb_hash_aref entries "packer" = .vnil →
        rb_hash_aref entries "unpacker" = .vstr s → s ∈ cmeths →
        Factory_register_type fc
            [.vint n, .vclass cname cmeths, .vhash entries]
          = ({ fc with
                pkrg := msgpack_packer_ext_registry_put fc.pkrg cname n .vnil
                ukrg := msgpack_unpacker_ext_registry_put fc.ukrg n
                  (.vproc (.boundMethod cname s)) },
             .ok .vnil)) ∧
      (∀ p : HookProc, rb_hash_aref entries "packer" = .vnil →
        rb_hash_aref entries "unpacker" = .vproc p →
        Factory_register_type fc
            [.vint n, .vclass cname cmeths, .vhash entries]
          = ({ fc with
                pkrg := msgpack_packer_ext_registry_put fc.pkrg cname n .vnil
                ukrg := msgpack_unpacker_ext_registry_put fc.ukrg n
                  (.vproc (.callMethod p)) },
             .ok .vnil)) ∧
      (∀ (i : Nat) (ms : List String),
        rb_hash_aref entries "packer" = .vnil →
        rb_hash_aref entries "unpacker" = .vobj i ms → "call" ∈ ms →
        Factory_register_type fc
            [.vint n, .vclass cname cmeths, .vhash entries]
          = ({ fc with
                pkrg := msgpack_packer_ext_registry_put fc.pkrg cname n .vnil
                ukrg := msgpack_unpacker_ext_registry_put fc.ukrg n
                  (.vproc (.objMethod i "call")) },
             .ok .vnil)) := by
  have hfr : Factory_register_type fc
      [.vint n, .vclass cname cmeths, .vhash entries]
      = Factory_register_type_body fc (.vint n) (.vclass cname cmeths)
        (rb_hash_aref entries "packer") (rb_hash_aref entries "unpacker") :=
    rfl
  refine ⟨?_, ?_, ?_, ?_, ?_, ?_, ?_⟩
  · intro hpa hua
    rw [hfr, hpa, hua]
    exact register_body_success fc n cname cmeths _ _ _ _ hlo hhi rfl rfl
  · intro p hpa hua
    rw [hfr, hpa, hua]
    exact register_body_success fc n cname cmeths _ _ _ _ hlo hhi rfl rfl
  · intro i ms hpa hm hua
    rw [hfr, hpa, hua]
    exact register_body_success fc n cname cmeths _ _ _ _ hlo hhi
      (by simp [resolve_packer_arg, ruby_to_proc, hm]) rfl
  · intro s hpa hua hm
    rw [hfr, hpa, hua]
    exact register_body_success fc n cname cmeths _ _ _ _ hlo hhi rfl
      (by simp [resolve_unpacker_arg, rb_obj_method, hm])
  · intro s hpa hua hm
    rw [hfr, hpa, hua]
    exact register_body_success fc n cname cmeths _ _ _ _ hlo hhi rfl
      (by simp [resolve_unpacker_arg, rb_obj_method, hm])
  · intro p hpa hua
    rw [hfr, hpa, hua]
    exact register_body_success fc n cname cmeths _ _ _ _ hlo hhi rfl rfl
  · intro i ms hpa hua hm
    rw [hfr, hpa, hua]
    exact register_body_success fc n cname cmeths _ _ _ _ hlo hhi rfl
      (by simp [resolve_unpacker_arg, ruby_method_call_of, hm])

/-- C5 witness: an options hash with both entries absent stores nil
hooks on both sides. -/
theorem register_type_hook_normalization_w :
    Factory_register_type Factory_alloc [.vint 2, .vclass "T" [], .vhash []]
      = ({ Factory_alloc with
            pkrg := msgpack_packer_ext_registry_put Factory_alloc.pkrg
              "T" 2 .vnil
            ukrg := msgpack_unpacker_ext_registry_put Factory_alloc.ukrg
              2 .vnil },
         .ok .vnil) :=
  (register_type_hook_normalization Factory_alloc 2 "T" [] []
    (by decide) (by decide)).1 rfl rfl
